import Mathlib

/-!
Formal verification of the `pyokosmeme` AT-Protocol publisher
(`scripts/publish_to_atproto.py`).

The Python source is shallowly embedded below.  Python strings are Lean
`String`s (both `len`/`String.length` count Unicode code points, and slicing
`s[:n]` is `pyTake s n`), Python dicts with a fixed key set become structures
or association lists, the external Repository Client (`atproto` record
creation) is a parameter returning `Except`, and exceptions caught by the
code are `Option`/`Except` values.  Timestamps (Python floats holding epoch
seconds) are modelled as rationals, which matches float comparison and
assignment semantics on all non-NaN values that occur.
-/

set_option maxRecDepth 40000

/-- Python slicing `s[:n]`: the first `n` code points of `s`. -/
def pyTake (s : String) (n : Nat) : String :=
  String.mk (s.data.take n)

/-- Whether `needle` is a prefix of `hay` (over code points). -/
def startsWithSeq : List Char → List Char → Bool
  | [], _ => true
  | _ :: _, [] => false
  | a :: as, b :: bs => a == b && startsWithSeq as bs

/-- Whether `needle` occurs as a contiguous subsequence of `hay`. -/
def containsSeq (needle : List Char) : List Char → Bool
  | [] => needle.isEmpty
  | c :: rest => startsWithSeq needle (c :: rest) || containsSeq needle rest

/-- Python's substring test `needle in hay`. -/
def pyIn (needle hay : String) : Bool :=
  containsSeq needle.data hay.data

/-- Models Python `str.lower` per character, on the alphabet this program
uses: ASCII letters plus the Greek capitals Α/Β/Γ that lower to the
phase-marker letters α/β/γ.  Other characters are unchanged. -/
def pyLower (c : Char) : Char :=
  if 'A' ≤ c ∧ c ≤ 'Z' then Char.ofNat (c.toNat + 32)
  else if c = 'Α' then 'α'
  else if c = 'Β' then 'β'
  else if c = 'Γ' then 'γ'
  else c

/-- Python `s.lower()` over a whole string. -/
def lowerStr (s : String) : String :=
  String.mk (s.data.map pyLower)

/-- The whitespace class of Python `str.split()` (ASCII part). -/
def pyIsSpace (c : Char) : Bool :=
  c = ' ' || c = '\t' || c = '\n' || c = '\r' || c = '\x0b' || c = '\x0c'

/-- Accumulator-based splitter behind `pySplitWS`. -/
def pySplitAux : List Char → List Char → List (List Char)
  | acc, [] => if acc.isEmpty then [] else [acc.reverse]
  | acc, c :: rest =>
    if pyIsSpace c then
      (if acc.isEmpty then [] else [acc.reverse]) ++ pySplitAux [] rest
    else pySplitAux (c :: acc) rest

/-- Python `s.split()` with no argument: whitespace-delimited tokens,
empty tokens discarded. -/
def pySplitWS (s : String) : List String :=
  (pySplitAux [] s.data).map String.mk

/-- Keyword-argument lookup used by the `str.format` model. -/
def lookupVal (vals : List (String × String)) (key : String) : Option String :=
  (vals.find? (fun p => p.1 == key)).map (fun p => p.2)

/-- Models Python `str.format(**vals)` for template texts whose placeholders
are plain names: a brace-delimited name is replaced by its value from
`vals`.  All templates in the registry below use only supplied names, so the
Python `KeyError` case is unreachable; the model leaves an unknown
placeholder in place there.  The fuel argument (the template length) only
makes the recursion structural; it never runs out because every step
consumes at least one character. -/
def pyFormatAux (vals : List (String × String)) : Nat → List Char → List Char
  | 0, cs => cs
  | _ + 1, [] => []
  | fuel + 1, c :: rest =>
    if c = '\x7b' then
      let key := rest.takeWhile (fun d => d ≠ '\x7d')
      let rest2 := (rest.dropWhile (fun d => d ≠ '\x7d')).drop 1
      (match lookupVal vals (String.mk key) with
       | some v => v.data
       | none => '\x7b' :: (key ++ ['\x7d'])) ++ pyFormatAux vals fuel rest2
    else c :: pyFormatAux vals fuel rest

/-- Python `template.format(**vals)`. -/
def pyFormat (template : String) (vals : List (String × String)) : String :=
  String.mk (pyFormatAux vals template.data.length template.data)

/-- An entry of the `ANNOUNCEMENT_TEMPLATES` dict: either a template text or
the nested phase-keyed dict (the `"phase_specific"` entry). -/
inductive TemplateEntry where
  | text (s : String)
  | nested (m : List (String × String))
deriving DecidableEq

/-- The `"default"` announcement template text (src lines 17-23). -/
def default_template_text : String :=
  "⟨⟨ NEW SPINGL∆SS NODE ⟩⟩\n\n{title}\n\n\"{excerpt}\"\n\n→ {url}"

/-- The `"minimal"` announcement template text (src lines 24-25). -/
def minimal_template_text : String :=
  "new node: {title}\n{url}"

/-- The nested `"phase_specific"` dict (src lines 26-40). -/
def PHASE_SPECIFIC : List (String × String) :=
  [("phaseα", "⟨⟨ PH∆SE Α EMISSION ⟩⟩\n{title}\n\"{excerpt}\"\n∂S/∂t → ∞\n{url}"),
   ("phaseβ", "⟨⟨ PH∆SE β CRYSTALLIZATION ⟩⟩\n{title}\nspin glass transition detected\n{url}"),
   ("phaseγ", "⟨⟨ PH∆SE γ RADIATION ⟩⟩\n{title}\ntopology: {topology_status}\n{url}")]

/-- The `"glitch"` template text (src lines 41-44); the first line is the
word glitch detected with U+0338 overlays after every character. -/
def glitch_template_text : String :=
  "g̸l̸i̸t̸c̸h̸ ̸d̸e̸t̸e̸c̸t̸e̸d̸\n{title}\nsys.tem.mal//function\n{url}"

/-- The `"mathematical"` template text (src lines 45-47). -/
def mathematical_template_text : String :=
  "∂[NEW]/∂t = {title}\n∫∫∫ {excerpt} dx dy dz\nlim(t→∞) = {url}"

/-- The `"cryptic"` template text (src lines 48-51). -/
def cryptic_template_text : String :=
  "◈◈◈◈◈◈◈◈◈◈◈◈\n{encoded_title}\n◈◈◈◈◈◈◈◈◈◈◈◈\n{url}"

/-- The `"network_state"` template text (src lines 52-56). -/
def network_state_template_text : String :=
  "CONSENSUS.BROADCAST()\nnode: {title}\nstake: {word_count} words\nvalidators: pending\n{url}"

/-- The `ANNOUNCEMENT_TEMPLATES` registry (src lines 16-57), in source
order. -/
def ANNOUNCEMENT_TEMPLATES : List (String × TemplateEntry) :=
  [("default", TemplateEntry.text default_template_text),
   ("minimal", TemplateEntry.text minimal_template_text),
   ("phase_specific", TemplateEntry.nested PHASE_SPECIFIC),
   ("glitch", TemplateEntry.text glitch_template_text),
   ("mathematical", TemplateEntry.text mathematical_template_text),
   ("cryptic", TemplateEntry.text cryptic_template_text),
   ("network_state", TemplateEntry.text network_state_template_text)]

/-- Dict lookup in `ANNOUNCEMENT_TEMPLATES`. -/
def lookupTemplate (key : String) : Option TemplateEntry :=
  (ANNOUNCEMENT_TEMPLATES.find? (fun p => p.1 == key)).map (fun p => p.2)

/-- Dict lookup in the nested `phase_specific` dict. -/
def lookupPhase (key : String) : Option String :=
  (PHASE_SPECIFIC.find? (fun p => p.1 == key)).map (fun p => p.2)

/-- The metadata dict consumed by `create_announcement_post`.  The program
builds it in `extract_article_metadata`, which always sets `phase`,
`has_glitch` and `has_math` and never sets a `content` key; `content` is
`Option` because the code reads it with `metadata.get("content", "")`. -/
structure Metadata where
  has_glitch : Bool
  has_math : Bool
  phase : String
  content : Option String
deriving DecidableEq

/-- The Bluesky feed-post record returned by `create_announcement_post`
(src lines 107-112); `rtype` holds the record's `$type`. -/
structure FeedPost where
  rtype : String
  text : String
  createdAt : String
  langs : List String
deriving DecidableEq

/-- The `encoded_title` helper value (src line 86):
`"".join([chr(ord(c) + 1) for c in title[:20]])`. -/
def encoded_title_of (title : String) : String :=
  String.mk ((title.data.take 20).map (fun c => Char.ofNat (c.toNat + 1)))

/-- The excerpt keyword argument of the format call (src line 92):
`(excerpt[:100] + "...") if len(excerpt) > 100 else excerpt`. -/
def excerpt_arg (excerpt : String) : String :=
  if excerpt.length > 100 then pyTake excerpt 100 ++ "..." else excerpt

/-- Embeds `create_announcement_post` (src lines 59-112).  `now` stands for
`datetime.now().isoformat()`.  The result is `none` exactly when the Python
function would raise: that happens only for `template = "phase_specific"`,
where the dict value selected from the registry has no `format` method.
Faithfully to the source, the auto-select branch for a phase-specific
variant binds the variant text but leaves `template = "auto"` (the `sel`
pair's second component), and the unconditional template-text selection
afterwards (src lines 79-82) discards that binding, because `"auto"` is not
a registry key. -/
def create_announcement_post (now title excerpt article_url : String)
    (metadata : Metadata) (template : String) : Option FeedPost :=
  let sel : String × Option String :=
    if template == "auto" then
      if metadata.has_glitch then ("glitch", none)
      else if metadata.has_math then ("mathematical", none)
      else match lookupPhase metadata.phase with
        | some t => ("auto", some t)
        | none => ("default", none)
    else (template, none)
  let template_text : TemplateEntry :=
    match lookupTemplate sel.1 with
    | some e => e
    | none => TemplateEntry.text default_template_text
  match template_text with
  | TemplateEntry.nested _ => none
  | TemplateEntry.text ttext =>
    let word_count := (pySplitWS (metadata.content.getD "")).length
    let encoded_title := encoded_title_of title
    let topology_status := if metadata.has_glitch then "WARPED" else "STABLE"
    let announcement := pyFormat ttext
      [("title", title),
       ("excerpt", excerpt_arg excerpt),
       ("url", article_url),
       ("phase", metadata.phase),
       ("word_count", toString word_count),
       ("encoded_title", encoded_title),
       ("topology_status", topology_status)]
    let announcement :=
      if announcement.length > 300 then
        pyFormat minimal_template_text
          [("title", if title.length > 50 then pyTake title 50 ++ "..." else title),
           ("url", article_url)]
      else announcement
    some { rtype := "app.bsky.feed.post", text := announcement,
           createdAt := now ++ "Z", langs := ["en"] }

/-- Tries to match the regex `<p>([^<]+)</p>` at the head of the input,
returning the capture group. -/
def matchP : List Char → Option (List Char)
  | '<' :: 'p' :: '>' :: rest =>
    let grp := rest.takeWhile (fun c => c ≠ '<')
    if grp.isEmpty then none
    else match rest.dropWhile (fun c => c ≠ '<') with
      | '<' :: '/' :: 'p' :: '>' :: _ => some grp
      | _ => none
  | _ => none

/-- Leftmost match of `<p>([^<]+)</p>`, as in `re.search`. -/
def searchP : List Char → Option (List Char)
  | [] => none
  | c :: rest =>
    match matchP (c :: rest) with
    | some g => some g
    | none => searchP rest

/-- Embeds the search for the pattern shown in `matchP` over the whole
content, returning the first capture group (src line 139). -/
def findP (content : String) : Option String :=
  (searchP content.data).map String.mk

/-- Embeds the excerpt part of `extract_article_metadata` (src lines
139-143): first paragraph text (else `""`), HTML-entity decoded by the
external `html.unescape` (a parameter here), truncated to 300 code points
with `"..."` appended only when it was longer. -/
def extract_excerpt (unescape : String → String) (content : String) : String :=
  let excerpt := (findP content).getD ""
  let excerpt := unescape excerpt
  if excerpt.length > 300 then pyTake excerpt 300 ++ "..." else excerpt

/-- Embeds the phase part of `extract_article_metadata` (src lines
149-156): the stylized markers are tested against the original path, the
ASCII markers against the lowercased path, in priority order α, β, γ. -/
def extract_phase (html_path : String) : String :=
  let lower := lowerStr html_path
  if pyIn "phaseα" html_path || pyIn "phasea" lower then "phaseα"
  else if pyIn "phaseβ" html_path || pyIn "phaseb" lower then "phaseβ"
  else if pyIn "phaseγ" html_path || pyIn "phaseg" lower then "phaseγ"
  else "unknown"

/-- Embeds `publish_article` (src lines 262-278).  Building the record and
submitting it to the content repository happen inside the `try` block; the
whole attempt is summarized by `create_record`, the external Repository
Client call, which returns the created record's URI or raises.  The
`except` clause maps any failure to `None`. -/
def publish_article (create_record : String → Except String String)
    (html_path : String) : Option String :=
  match create_record html_path with
  | Except.ok uri => some uri
  | Except.error _ => none

/-- The per-document loop of `main` over a batch of paths (src lines
367-369 and 375-376): each document is published independently. -/
def publish_batch (create_record : String → Except String String)
    (paths : List String) : List (Option String) :=
  paths.map (publish_article create_record)

/-- One remote `create_record` call: the target collection and a tag for
the submitted record. -/
structure RemoteCall where
  collection : String
  payload : String
deriving DecidableEq

/-- The single remote call made by `publish_article` (src lines 266-270):
one record creation in the `com.whitewind.blog.entry` collection.  No other
remote call occurs in its body. -/
def publish_article_call (html_path : String) : RemoteCall :=
  { collection := "com.whitewind.blog.entry", payload := html_path }

/-- The remote calls made by `publish_index_post` (src lines 280-315): for
an empty batch it returns early with no call; otherwise it creates exactly
one record, again in the `com.whitewind.blog.entry` collection. -/
def publish_index_post_calls (new_articles : List String) : List RemoteCall :=
  if new_articles.isEmpty then []
  else [{ collection := "com.whitewind.blog.entry", payload := "index" }]

/-- The remote record-creation calls of `main` in `--new-only` mode (src
lines 371-379): one `publish_article` call per new document, then
`publish_index_post` on the whole batch; nothing if the batch is empty. -/
def main_new_only_calls (new : List String) : List RemoteCall :=
  if new.isEmpty then []
  else new.map publish_article_call ++ publish_index_post_calls new

/-- Number of calls in a trace that target a given collection. -/
def count_calls_to (collection : String) (calls : List RemoteCall) : Nat :=
  (calls.filter (fun c => c.collection == collection)).length

/-- Embeds `find_new_articles` (src lines 317-333).  `files` is the result
of globbing `phase*/ *.html` as (path, mtime) pairs, `stored` is the text of
the last-run file (absent file gives cutoff 0.0), and `now` is
`datetime.now().timestamp()`.  The function returns the paths strictly newer
than the cutoff together with the value written back to the last-run file,
which is always `now`. -/
def find_new_articles (files : List (String × ℚ)) (stored : Option ℚ)
    (now : ℚ) : List String × ℚ :=
  let last_run : ℚ := stored.getD 0
  ((files.filter (fun f => last_run < f.2)).map (fun f => f.1), now)

/-- Fixture: a 101-character excerpt used to instantiate C10. -/
def e101 : String := String.mk (List.replicate 101 'x')

/-- Fixture: a Repository Client stub that rejects the path "bad" and
accepts every other path, used to instantiate C9. -/
def witness_client : String → Except String String := fun p =>
  if p == "bad" then Except.error "boom"
  else Except.ok ("at://did/com.whitewind.blog.entry/" ++ p)

/-- Fixture: an arbitrary feed post used as an `Option.getD` default. -/
def fp0 : FeedPost := { rtype := "", text := "", createdAt := "", langs := [] }

theorem pyTake_length (s : String) (n : Nat) :
    (pyTake s n).length = min n s.length :=
  List.length_take n s.data

theorem char_toNat_ofNat_of_valid {n : Nat} (h : n.isValidChar) :
    (Char.ofNat n).toNat = n := by
  simp [Char.ofNat, h, Char.ofNatAux, Char.toNat, UInt32.toNat, BitVec.toNat_ofNatLt]

theorem format_minimal (t u : String) :
    pyFormat minimal_template_text [("title", t), ("url", u)] =
      "new node: " ++ (t ++ ("\n" ++ u)) := by
  have h : pyFormat minimal_template_text [("title", t), ("url", u)] =
      "new node: " ++ (t ++ ("\n" ++ (u ++ ""))) := rfl
  rwa [String.append_empty] at h

theorem format_network_state (t e u ph wc et ts : String) :
    pyFormat network_state_template_text
      [("title", t), ("excerpt", e), ("url", u), ("phase", ph),
       ("word_count", wc), ("encoded_title", et), ("topology_status", ts)] =
      "CONSENSUS.BROADCAST()\nnode: " ++ (t ++ ("\nstake: " ++
        (wc ++ (" words\nvalidators: pending\n" ++ u)))) := by
  have h : pyFormat network_state_template_text
      [("title", t), ("excerpt", e), ("url", u), ("phase", ph),
       ("word_count", wc), ("encoded_title", et), ("topology_status", ts)] =
      "CONSENSUS.BROADCAST()\nnode: " ++ (t ++ ("\nstake: " ++
        (wc ++ (" words\nvalidators: pending\n" ++ (u ++ ""))))) := rfl
  rwa [String.append_empty] at h

theorem format_cryptic (t e u ph wc et ts : String) :
    pyFormat cryptic_template_text
      [("title", t), ("excerpt", e), ("url", u), ("phase", ph),
       ("word_count", wc), ("encoded_title", et), ("topology_status", ts)] =
      "◈◈◈◈◈◈◈◈◈◈◈◈\n" ++ (et ++ ("\n◈◈◈◈◈◈◈◈◈◈◈◈\n" ++ u)) := by
  have h : pyFormat cryptic_template_text
      [("title", t), ("excerpt", e), ("url", u), ("phase", ph),
       ("word_count", wc), ("encoded_title", et), ("topology_status", ts)] =
      "◈◈◈◈◈◈◈◈◈◈◈◈\n" ++ (et ++ ("\n◈◈◈◈◈◈◈◈◈◈◈◈\n" ++ (u ++ ""))) := rfl
  rwa [String.append_empty] at h

/-- C1: in a `--new-only` run over a batch of 3 new documents the program
makes exactly 3 content-collection record creations for the articles plus
exactly 1 for the digest (4 in total, all in `com.whitewind.blog.entry`),
and — contrary to the claim — it makes no feed-collection submission at
all, for this batch or for any batch: `create_announcement_post` is never
invoked by `main`, so no announcement is ever submitted. -/
theorem C1_new_only_batch_never_publishes_feed_records (a b c : String) :
    count_calls_to "com.whitewind.blog.entry" (main_new_only_calls [a, b, c]) = 4 ∧
    count_calls_to "app.bsky.feed.post" (main_new_only_calls [a, b, c]) = 0 ∧
    ∀ new : List String,
      count_calls_to "app.bsky.feed.post" (main_new_only_calls new) = 0 := by
  refine ⟨rfl, rfl, ?_⟩
  intro new
  unfold main_new_only_calls
  split
  · rfl
  · unfold count_calls_to
    rw [List.filter_append, List.length_append]
    have h1 : (new.map publish_article_call).filter
        (fun r => r.collection == "app.bsky.feed.post") = [] := by
      induction new with
      | nil => rfl
      | cons x xs ih => simp [publish_article_call, ih]
    have h2 : (publish_index_post_calls new).filter
        (fun r => r.collection == "app.bsky.feed.post") = [] := by
      unfold publish_index_post_calls
      split
      · rfl
      · rfl
    rw [h1, h2]
    rfl

/-- C2: with `template = "auto"`, both flags false and phase `"phaseα"`
(which has a configured phase-specific variant), the rendered announcement
is the default template's rendering, not the phase-specific variant's: the
variant text bound in the auto-select branch is discarded because
`template` is left equal to `"auto"`, which is not a registry key, so the
unconditional lookup afterwards falls back to the default template. -/
theorem C2_auto_phase_variant_overwritten_by_default :
    (create_announcement_post "2024-01-01T00:00:00" "T" "E" "u"
        { has_glitch := false, has_math := false, phase := "phaseα", content := none }
        "auto").map (fun p => p.text) =
      some "⟨⟨ NEW SPINGL∆SS NODE ⟩⟩\n\nT\n\n\"E\"\n\n→ u" ∧
    lookupPhase "phaseα" =
      some "⟨⟨ PH∆SE Α EMISSION ⟩⟩\n{title}\n\"{excerpt}\"\n∂S/∂t → ∞\n{url}" ∧
    pyFormat "⟨⟨ PH∆SE Α EMISSION ⟩⟩\n{title}\n\"{excerpt}\"\n∂S/∂t → ∞\n{url}"
        [("title", "T"), ("excerpt", "E"), ("url", "u"), ("phase", "phaseα"),
         ("word_count", "0"), ("encoded_title", "U"), ("topology_status", "STABLE")] ≠
      "⟨⟨ NEW SPINGL∆SS NODE ⟩⟩\n\nT\n\n\"E\"\n\n→ u" :=
  ⟨rfl, rfl, by decide⟩

/-- C7 counterexample: the path "Phaseα" contains the stylized marker
`phaseα` case-insensitively (its lowercasing contains the marker verbatim),
yet the code classifies it as `unknown`, because the stylized marker is
only tested against the original, non-lowercased path.  This refutes the
claim that the phase is determined case-insensitively for both marker
forms. -/
theorem C7_stylized_marker_case_sensitive_counterexample :
    extract_phase "Phaseα" = "unknown" ∧
    pyIn "phaseα" (lowerStr "Phaseα") = true := by
  exact ⟨by decide, by decide⟩

/-- C7 (amended): phase detection follows the fixed priority
phaseα → phaseβ → phaseγ with first match winning and `unknown` as the
default, where each phase matches if its stylized marker occurs verbatim in
the path or its ASCII-transliterated marker occurs in the lowercased path
(so only the ASCII form is case-insensitive); in particular any path with a
phaseα marker resolves to `"phaseα"` no matter which other markers are
present. -/
theorem C7_phase_priority (p : String) :
    ((pyIn "phaseα" p || pyIn "phasea" (lowerStr p)) = true →
      extract_phase p = "phaseα") ∧
    ((pyIn "phaseα" p || pyIn "phasea" (lowerStr p)) = false →
      (pyIn "phaseβ" p || pyIn "phaseb" (lowerStr p)) = true →
      extract_phase p = "phaseβ") ∧
    ((pyIn "phaseα" p || pyIn "phasea" (lowerStr p)) = false →
      (pyIn "phaseβ" p || pyIn "phaseb" (lowerStr p)) = false →
      (pyIn "phaseγ" p || pyIn "phaseg" (lowerStr p)) = true →
      extract_phase p = "phaseγ") ∧
    ((pyIn "phaseα" p || pyIn "phasea" (lowerStr p)) = false →
      (pyIn "phaseβ" p || pyIn "phaseb" (lowerStr p)) = false →
      (pyIn "phaseγ" p || pyIn "phaseg" (lowerStr p)) = false →
      extract_phase p = "unknown") := by
  unfold extract_phase
  refine ⟨fun h1 => ?_, fun h1 h2 => ?_, fun h1 h2 h3 => ?_, fun h1 h2 h3 => ?_⟩
  · simp [h1]
  · simp [h1, h2]
  · simp [h1, h2, h3]
  · simp [h1, h2, h3]

/-- C7 witness: a path carrying both a phaseα and a phaseβ marker resolves
to phaseα. -/
theorem C7_phase_priority_witness :
    extract_phase "notes/phaseα_phaseβ.html" = "phaseα" :=
  (C7_phase_priority "notes/phaseα_phaseβ.html").1 (by decide)

/-- C8: the value persisted by `find_new_articles` is exactly the current
wall-clock time, independent of which files were found or processed, and
two successive runs never decrease the stored value as long as the clock
does not run backwards. -/
theorem C8_cutoff_monotone (files1 files2 : List (String × ℚ))
    (stored : Option ℚ) (t1 t2 : ℚ) (h : t1 ≤ t2) :
    (find_new_articles files1 stored t1).2 = t1 ∧
    (find_new_articles files1 stored t1).2 = (find_new_articles files2 stored t1).2 ∧
    (find_new_articles files1 stored t1).2 ≤
      (find_new_articles files2 (some (find_new_articles files1 stored t1).2) t2).2 :=
  ⟨rfl, rfl, h⟩

/-- C8 witness: concrete instantiation at clock times 10 and 11. -/
theorem C8_cutoff_monotone_witness :
    (find_new_articles [("phaseα/a.html", 5)] none 10).2 = 10 ∧
    (find_new_articles [("phaseα/a.html", 5)] none 10).2 =
      (find_new_articles [] none 10).2 ∧
    (find_new_articles [("phaseα/a.html", 5)] none 10).2 ≤
      (find_new_articles [] (some (find_new_articles [("phaseα/a.html", 5)] none 10).2) 11).2 :=
  C8_cutoff_monotone [("phaseα/a.html", 5)] [] none 10 11 (by norm_num)

/-- C9: when the Repository Client raises for one document, that document's
result is `None` (no reference), the exception does not escape
`publish_article`, and the batch still produces a result for every
document, each one depending only on its own client call. -/
theorem C9_publish_failure_isolated (create_record : String → Except String String)
    (paths : List String) (i : Nat) (p e : String)
    (hp : paths[i]? = some p) (hfail : create_record p = Except.error e) :
    (publish_batch create_record paths)[i]? = some none ∧
    (publish_batch create_record paths).length = paths.length ∧
    ∀ j : Nat, (publish_batch create_record paths)[j]? =
      (paths[j]?).map (publish_article create_record) := by
  refine ⟨?_, ?_, fun j => ?_⟩
  · rw [publish_batch, List.getElem?_map, hp]
    simp [publish_article, hfail]
  · exact List.length_map paths (publish_article create_record)
  · rw [publish_batch, List.getElem?_map]

/-- C9 witness: in the batch ["a", "bad", "c"] the middle document's write
fails; its result is `none` and all three documents get results. -/
theorem C9_publish_failure_isolated_witness :
    (publish_batch witness_client ["a", "bad", "c"])[1]? = some none ∧
    (publish_batch witness_client ["a", "bad", "c"]).length =
      (["a", "bad", "c"] : List String).length ∧
    ∀ j : Nat, (publish_batch witness_client ["a", "bad", "c"])[j]? =
      ((["a", "bad", "c"] : List String)[j]?).map (publish_article witness_client) :=
  C9_publish_failure_isolated witness_client ["a", "bad", "c"] 1 "bad" "boom" rfl rfl

theorem excerpt_arg_of_gt {e : String} (h : 100 < e.length) :
    excerpt_arg e = pyTake e 100 ++ "..." := by
  unfold excerpt_arg
  rw [if_pos h]

theorem excerpt_arg_of_le {e : String} (h : e.length ≤ 100) :
    excerpt_arg e = e := by
  unfold excerpt_arg
  rw [if_neg (by omega)]

theorem pyTake_pyTake_append (e : String) (h : 100 < e.length) :
    pyTake (pyTake e 100 ++ "...") 100 = pyTake e 100 := by
  have hlen : 100 ≤ (e.data.take 100).length := by
    rw [List.length_take]
    have hdl : e.data.length = e.length := rfl
    omega
  unfold pyTake
  congr 1
  rw [String.data_append]
  rw [List.take_append_of_le_length hlen]
  rw [List.take_take]
  norm_num

theorem excerpt_arg_append_trunc {e : String} (h : 100 < e.length) :
    excerpt_arg (pyTake e 100 ++ "...") = pyTake e 100 ++ "..." := by
  have hlen : (pyTake e 100 ++ "...").length = 103 := by
    rw [String.length_append, pyTake_length]
    have hm : min 100 e.length = 100 := by omega
    rw [hm]
    rfl
  rw [excerpt_arg_of_gt (by omega), pyTake_pyTake_append e h]

theorem create_excerpt_congr (now title article_url : String) (md : Metadata)
    (template : String) {e1 e2 : String} (h : excerpt_arg e1 = excerpt_arg e2) :
    create_announcement_post now title e1 article_url md template =
      create_announcement_post now title e2 article_url md template := by
  unfold create_announcement_post
  rw [h]

/-- C10: the renderer substitutes only a 100-code-point prefix of the
excerpt (plus an appended "..." when the excerpt is longer than 100):
rendering with a long excerpt equals rendering with its 100-character
truncation plus "...", and any two excerpts agreeing on their first 100
characters and on whether they exceed 100 characters render identically,
for every template and metadata. -/
theorem C10_excerpt_truncated_before_render (now title excerpt article_url : String)
    (md : Metadata) (template : String) :
    (100 < excerpt.length →
      create_announcement_post now title excerpt article_url md template =
        create_announcement_post now title (pyTake excerpt 100 ++ "...") article_url
          md template) ∧
    (∀ excerpt2 : String, pyTake excerpt 100 = pyTake excerpt2 100 →
      (100 < excerpt.length ↔ 100 < excerpt2.length) →
      create_announcement_post now title excerpt article_url md template =
        create_announcement_post now title excerpt2 article_url md template) := by
  constructor
  · intro h
    apply create_excerpt_congr
    rw [excerpt_arg_of_gt h, excerpt_arg_append_trunc h]
  · intro e2 htake hiff
    apply create_excerpt_congr
    by_cases h : 100 < excerpt.length
    · rw [excerpt_arg_of_gt h, excerpt_arg_of_gt (hiff.mp h), htake]
    · have h2 : ¬100 < e2.length := fun hh => h (hiff.mpr hh)
      have he : excerpt = e2 := by
        have d1 : excerpt.data.take 100 = excerpt.data :=
          List.take_of_length_le (by have : excerpt.data.length = excerpt.length := rfl; omega)
        have d2 : e2.data.take 100 = e2.data :=
          List.take_of_length_le (by have : e2.data.length = e2.length := rfl; omega)
        have hd : excerpt.data.take 100 = e2.data.take 100 := congrArg String.data htake
        apply String.ext
        rw [← d1, ← d2, hd]
      rw [he]

/-- C10 witness: with a 101-character excerpt, the rendered announcement
coincides with the one rendered from the truncated excerpt plus "...". -/
theorem C10_excerpt_truncated_before_render_witness :
    create_announcement_post "2024-01-01T00:00:00" "T" e101 "u"
        { has_glitch := false, has_math := false, phase := "unknown", content := none }
        "default" =
      create_announcement_post "2024-01-01T00:00:00" "T" (pyTake e101 100 ++ "...") "u"
        { has_glitch := false, has_math := false, phase := "unknown", content := none }
        "default" :=
  (C10_excerpt_truncated_before_render "2024-01-01T00:00:00" "T" e101 "u"
    { has_glitch := false, has_math := false, phase := "unknown", content := none }
    "default").1 (by decide)

/-- C5: the extracted excerpt never exceeds 303 code points; when the
decoded first-paragraph text exceeds 300 code points the excerpt is its
300-character prefix with the 3-character ellipsis appended, otherwise the
excerpt is exactly the decoded text (so the appended ellipsis is present
iff the paragraph exceeded 300); and with no paragraph element the excerpt
is empty.  `unescape` abstracts the external `html.unescape`, which maps
the empty string to itself. -/
theorem C5_excerpt_length_invariant (unescape : String → String) (content : String)
    (hu : unescape "" = "") :
    (extract_excerpt unescape content).length ≤ 303 ∧
    (300 < (unescape ((findP content).getD "")).length →
      extract_excerpt unescape content =
        pyTake (unescape ((findP content).getD "")) 300 ++ "...") ∧
    ((unescape ((findP content).getD "")).length ≤ 300 →
      extract_excerpt unescape content = unescape ((findP content).getD "")) ∧
    (findP content = none → extract_excerpt unescape content = "") := by
  simp only [extract_excerpt]
  refine ⟨?_, fun h => ?_, fun h => ?_, fun h => ?_⟩
  · split
    · rw [String.length_append, pyTake_length]
      have hm := Nat.min_le_left 300 (unescape ((findP content).getD "")).length
      have h3 : ("..." : String).length = 3 := rfl
      omega
    · rename_i hle
      omega
  · rw [if_pos h]
  · rw [if_neg (by omega)]
  · rw [h]
    simp [hu]

/-- C5 witness: a document whose first paragraph is "hi". -/
theorem C5_excerpt_length_invariant_witness :
    (extract_excerpt id "<p>hi</p>").length ≤ 303 ∧
    extract_excerpt id "<p>hi</p>" = id ((findP "<p>hi</p>").getD "") :=
  ⟨(C5_excerpt_length_invariant id "<p>hi</p>" rfl).1,
   (C5_excerpt_length_invariant id "<p>hi</p>" rfl).2.2.1 (by decide)⟩

theorem create_text_le_or_minimal (now title excerpt article_url : String)
    (md : Metadata) (template : String) (post : FeedPost)
    (hpost : create_announcement_post now title excerpt article_url md template = some post) :
    post.text.length ≤ 300 ∨ post.text = pyFormat minimal_template_text
      [("title", if title.length > 50 then pyTake title 50 ++ "..." else title),
       ("url", article_url)] := by
  simp only [create_announcement_post] at hpost
  split at hpost
  · exact (Option.noConfusion hpost)
  · injection hpost with hpost
    subst hpost
    dsimp only
    split <;> split
    all_goals first
      | (right; rfl)
      | (left; omega)

/-- C6 counterexample: with a 300-character URL the initial render of the
default template exceeds 300 characters, and the minimal-template
re-render still has 312 characters, so the produced feed-post text exceeds
the 300-character bound claimed for all titles, excerpts and URLs. -/
theorem C6_long_url_counterexample :
    (create_announcement_post "2024-01-01T00:00:00" "t" ""
        (String.mk (List.replicate 300 'u'))
        { has_glitch := false, has_math := false, phase := "unknown", content := none }
        "default").map (fun p => p.text.length) = some 312 ∧
    (create_announcement_post "2024-01-01T00:00:00" "t" ""
        (String.mk (List.replicate 300 'u'))
        { has_glitch := false, has_math := false, phase := "unknown", content := none }
        "default").map (fun p => decide (300 < p.text.length)) = some true :=
  ⟨by decide, by decide⟩

/-- C6 (amended): whenever the initial render exceeds 300 characters it is
replaced by the minimal-template render with the title truncated to at
most 50 characters plus an ellipsis, and the resulting feed-post text is
at most 300 characters provided the URL is at most 236 characters long
(the minimal render is "new node: " + title part + newline + URL, i.e. at
most 11 + 53 + 236 = 300 characters); without a bound on the URL the
300-character ceiling does not hold. -/
theorem C6_feed_text_bounded_when_url_short (now title excerpt article_url : String)
    (md : Metadata) (template : String) (post : FeedPost)
    (hpost : create_announcement_post now title excerpt article_url md template = some post)
    (hurl : article_url.length ≤ 236) :
    post.text.length ≤ 300 := by
  rcases create_text_le_or_minimal now title excerpt article_url md template post hpost
    with h | h
  · exact h
  · rw [h, format_minimal]
    simp only [String.length_append]
    have h10 : ("new node: " : String).length = 10 := rfl
    have hnl : ("\n" : String).length = 1 := rfl
    have ht : (if title.length > 50 then pyTake title 50 ++ "..." else title).length ≤ 53 := by
      split
      · rw [String.length_append, pyTake_length]
        have hm := Nat.min_le_left 50 title.length
        have h3 : ("..." : String).length = 3 := rfl
        omega
      · omega
    omega

/-- C6 witness: a concrete short-URL publish whose feed text obeys the
300-character bound. -/
theorem C6_feed_text_bounded_when_url_short_witness :
    ((create_announcement_post "2024-01-01T00:00:00" "Node" "Exc" "https://x.y/z"
        { has_glitch := false, has_math := false, phase := "unknown", content := none }
        "default").getD fp0).text.length ≤ 300 :=
  C6_feed_text_bounded_when_url_short "2024-01-01T00:00:00" "Node" "Exc" "https://x.y/z"
    { has_glitch := false, has_math := false, phase := "unknown", content := none }
    "default"
    ((create_announcement_post "2024-01-01T00:00:00" "Node" "Exc" "https://x.y/z"
        { has_glitch := false, has_math := false, phase := "unknown", content := none }
        "default").getD fp0)
    rfl (by decide)

/-- C3 counterexample: rendering the `network_state` template (the one
carrying the `word_count` placeholder) with excerpt "a b c" (3 tokens) and
a metadata dict without a content entry substitutes 0, not 3: the word
count is computed from `metadata.get("content", "")`, not from the
excerpt. -/
theorem C3_word_count_counterexample :
    (create_announcement_post "2024-01-01T00:00:00" "T" "a b c" "u"
        { has_glitch := false, has_math := false, phase := "unknown", content := none }
        "network_state").map (fun p => p.text) =
      some "CONSENSUS.BROADCAST()\nnode: T\nstake: 0 words\nvalidators: pending\nu" ∧
    (pySplitWS "a b c").length = 3 :=
  ⟨by decide, by decide⟩

/-- C3 (amended): the value substituted for the `word_count` placeholder is
the number of whitespace-delimited tokens of the metadata's `content`
field (the empty string when that key is absent), independent of the
excerpt supplied to the renderer; shown on the `network_state` template,
whose rendered text carries that token count, for every excerpt. -/
theorem C3_word_count_counts_metadata_content
    (now title excerpt article_url : String) (md : Metadata)
    (h : ("CONSENSUS.BROADCAST()\nnode: " ++ (title ++ ("\nstake: " ++
        (toString (pySplitWS (md.content.getD "")).length ++
          (" words\nvalidators: pending\n" ++ article_url))))).length ≤ 300) :
    create_announcement_post now title excerpt article_url md "network_state" =
      some { rtype := "app.bsky.feed.post",
             text := "CONSENSUS.BROADCAST()\nnode: " ++ (title ++ ("\nstake: " ++
               (toString (pySplitWS (md.content.getD "")).length ++
                 (" words\nvalidators: pending\n" ++ article_url)))),
             createdAt := now ++ "Z", langs := ["en"] } := by
  have hred : create_announcement_post now title excerpt article_url md "network_state" =
      some { rtype := "app.bsky.feed.post",
             text := (if (pyFormat network_state_template_text
                 [("title", title), ("excerpt", excerpt_arg excerpt),
                  ("url", article_url), ("phase", md.phase),
                  ("word_count", toString (pySplitWS (md.content.getD "")).length),
                  ("encoded_title", encoded_title_of title),
                  ("topology_status", if md.has_glitch then "WARPED" else "STABLE")]).length > 300
               then pyFormat minimal_template_text
                 [("title", if title.length > 50 then pyTake title 50 ++ "..." else title),
                  ("url", article_url)]
               else pyFormat network_state_template_text
                 [("title", title), ("excerpt", excerpt_arg excerpt),
                  ("url", article_url), ("phase", md.phase),
                  ("word_count", toString (pySplitWS (md.content.getD "")).length),
                  ("encoded_title", encoded_title_of title),
                  ("topology_status", if md.has_glitch then "WARPED" else "STABLE")]),
             createdAt := now ++ "Z", langs := ["en"] } := rfl
  rw [hred, format_network_state, if_neg (by omega)]

/-- C3 witness: with content "a b" the substituted word count is 2. -/
theorem C3_word_count_counts_metadata_content_witness :
    create_announcement_post "2024-01-01T00:00:00" "T" "E" "u"
        { has_glitch := false, has_math := false, phase := "unknown", content := some "a b" }
        "network_state" =
      some { rtype := "app.bsky.feed.post",
             text := "CONSENSUS.BROADCAST()\nnode: T\nstake: 2 words\nvalidators: pending\nu",
             createdAt := "2024-01-01T00:00:00Z", langs := ["en"] } :=
  C3_word_count_counts_metadata_content "2024-01-01T00:00:00" "T" "E" "u"
    { has_glitch := false, has_math := false, phase := "unknown", content := some "a b" }
    (by decide)

theorem list_shift_get (l : List Char) (i : Nat)
    (hi : i < ((l.take 20).map (fun c => Char.ofNat (c.toNat + 1))).length)
    (hj : i < l.length)
    (hv : Nat.isValidChar ((l.get ⟨i, hj⟩).toNat + 1)) :
    (((l.take 20).map (fun c => Char.ofNat (c.toNat + 1))).get ⟨i, hi⟩).toNat =
      (l.get ⟨i, hj⟩).toNat + 1 := by
  simp only [List.get_eq_getElem]
  rw [List.getElem_map, List.getElem_take]
  exact char_toNat_ofNat_of_valid hv

/-- C4 counterexample: a 21-character title yields a 20-character
`encoded_title` (the code shifts only `title[:20]`), so the substituted
value's length differs from the title's length; the `cryptic` template
render exhibits the dropped 21st character. -/
theorem C4_encoded_title_truncates_at_20_counterexample :
    (encoded_title_of "abcdefghijklmnopqrstu").length = 20 ∧
    ("abcdefghijklmnopqrstu" : String).length = 21 ∧
    (create_announcement_post "2024-01-01T00:00:00" "abcdefghijklmnopqrstu" "" "u"
        { has_glitch := false, has_math := false, phase := "unknown", content := none }
        "cryptic").map (fun p => p.text) =
      some "◈◈◈◈◈◈◈◈◈◈◈◈\nbcdefghijklmnopqrstu\n◈◈◈◈◈◈◈◈◈◈◈◈\nu" :=
  ⟨by decide, by decide, by decide⟩

/-- C4 (amended): the `encoded_title` value substituted into templates is
built from the first 20 characters of the title only: its length is
min(title length, 20), and each of its characters is the successor code
point of the corresponding title character (whenever that successor is a
valid code point; the code does not define behavior at encoding
boundaries). -/
theorem C4_encoded_title_shifts_first_20 (title : String) :
    (encoded_title_of title).length = min title.length 20 ∧
    ∀ i (hi : i < (encoded_title_of title).data.length) (hj : i < title.data.length),
      Nat.isValidChar ((title.data.get ⟨i, hj⟩).toNat + 1) →
      ((encoded_title_of title).data.get ⟨i, hi⟩).toNat =
        (title.data.get ⟨i, hj⟩).toNat + 1 := by
  constructor
  · show ((title.data.take 20).map (fun c => Char.ofNat (c.toNat + 1))).length =
      min title.length 20
    rw [List.length_map, List.length_take, Nat.min_comm]
    rfl
  · intro i hi hj hvalid
    exact list_shift_get title.data i hi hj hvalid

/-- C4 witness: on the title "abc" the encoded title has length 3 and its
first character is the successor of the title's first character. -/
theorem C4_encoded_title_shifts_first_20_witness :
    (encoded_title_of "abc").length = min ("abc" : String).length 20 ∧
    ((encoded_title_of "abc").data.get ⟨0, by decide⟩).toNat =
      (("abc" : String).data.get ⟨0, by decide⟩).toNat + 1 :=
  ⟨(C4_encoded_title_shifts_first_20 "abc").1,
   (C4_encoded_title_shifts_first_20 "abc").2 0 (by decide) (by decide) (by decide)⟩
